import Mathlib

/-!
Verification development for the FormAI sensor-ingestion pipeline
(`cs_205_app.py`).  The definitions below are a shallow embedding of the
ingestion route `data()` (lines 415-485) and its helpers
`_to_datetime`, `_extract_xyz`, `_extract_wrist_motion_accel`,
`_extract_wrist_motion_gyro`, `_convert_accel`, `_convert_gyro`
(lines 52-118), together with the four ChannelSets of bounded deques
(lines 23-44).

Modelling conventions:
* JSON-decoded Python values are the inductive `JVal`; Python `None`
  (both a decoded JSON `null` and the result of a failed `dict.get`)
  is `JVal.null`.
* Python floats are modelled as exact rationals `ℚ`; the spec itself
  treats float rounding as "floating tolerance", and no claim depends
  on rounding.
* Converted channel values live in the subring ℚ + ℚ·π of ℝ, encoded as
  `RVal` = (rational part, coefficient of π); the gyro converter's
  `float(v) * (math.pi / 180.0)` is the exact element `(v/180)·π`.
* A `datetime` produced by `datetime.fromtimestamp(seconds)` is
  identified with its `seconds : ℚ`; comparison of datetimes is
  comparison of seconds.  Range errors of `fromtimestamp` (caught in
  the source and turned into `None`) are not modelled; no claim
  distinguishes a skipped record from an appended one at such extreme
  timestamps.
* Uncaught Python exceptions are `PyErr`; at the Flask boundary an
  uncaught exception becomes an HTTP 500, modelled as `Resp.serverError`.
-/

namespace FormAI

/-- A decoded JSON value as seen by the route after `request.get_json` /
`json.loads`.  `null` also stands for Python `None` returned by a failed
`dict.get`. -/
inductive JVal where
  | null : JVal
  | bool : Bool → JVal
  | num : ℚ → JVal
  | str : String → JVal
  | arr : List JVal → JVal
  | obj : List (String × JVal) → JVal

/-- `v is None` in Python. -/
def JVal.isNull : JVal → Bool
  | .null => true
  | _ => false

/-- Python truthiness of a decoded JSON value (`bool(v)`): `None`, `False`,
`0`, `""`, `[]`, `{}` are falsy. -/
def truthy : JVal → Bool
  | .null => false
  | .bool b => b
  | .num q => !(q == 0)
  | .str s => !s.isEmpty
  | .arr xs => !xs.isEmpty
  | .obj fs => !fs.isEmpty

/-- Python `a or b`: the first operand when truthy, else the second. -/
def pyOr (a b : JVal) : JVal := if truthy a then a else b

/-- Lookup of a key in a decoded JSON object; `none` when the key is
missing.  JSON objects are modelled as association lists; duplicate keys
are never used in this development. -/
def jlookup (fs : List (String × JVal)) (k : String) : Option JVal :=
  (fs.find? (fun kv => kv.1 == k)).map (fun kv => kv.2)

/-- Python `d.get(k)`: the stored value, or `None` when missing (a stored
JSON `null` and a missing key both come out as `JVal.null`, exactly as
both come out as `None` in the source). -/
def jget (fs : List (String × JVal)) (k : String) : JVal :=
  (jlookup fs k).getD .null

/-- A Python exception escaping the record-processing code. -/
inductive PyErr where
  | attributeError : PyErr
  | typeError : PyErr
  | valueError : PyErr
deriving DecidableEq, Repr

/-- Python `float(v)` on a decoded JSON value.  Numbers and booleans
convert; `None`, lists and dicts raise `TypeError`.  Python also parses
numeric strings — that case is modelled as `ValueError` uniformly, since
no claim involves a numeric-string axis or timestamp value, and every
concrete input used below uses strings (such as `"abc"`) on which Python
`float` raises `ValueError` as well. -/
def pyFloat : JVal → Except PyErr ℚ
  | .num q => .ok q
  | .bool b => .ok (if b then 1 else 0)
  | .str _ => .error .valueError
  | .null => .error .typeError
  | .arr _ => .error .typeError
  | .obj _ => .error .typeError

/-- Python `str(v)` as far as the route uses it (device-id comparison and
sensor-name matching).  Renderings of numbers and containers are
abstracted to tagged strings: the route only ever compares the result
with the device-filter string or with lowercase sensor names, and no
claim involves a non-string value whose Python rendering matches those. -/
def pyStr : JVal → String
  | .null => "None"
  | .bool true => "True"
  | .bool false => "False"
  | .num q => "num:" ++ toString q
  | .str s => s
  | .arr _ => "list:"
  | .obj _ => "dict:"

/-- ASCII lowering of one character (`str.lower` on the characters the
route ever compares). -/
def lowerChar (c : Char) : Char :=
  if 'A' ≤ c ∧ c ≤ 'Z' then Char.ofNat (c.toNat + 32) else c

/-- `str(v).lower()` (ASCII lowering; sensor names are ASCII). -/
def pyStrLower (v : JVal) : String := ⟨(pyStr v).data.map lowerChar⟩

/-- A converted channel value in the subring ℚ + ℚ·π of ℝ: `⟨a, b⟩`
denotes the real number `a + b·π`. -/
structure RVal where
  q : ℚ
  p : ℚ
deriving DecidableEq, Repr

/-- `MAX_DATA_POINTS = 1000` (line 23). -/
def MAX_DATA_POINTS : ℕ := 1000

/-- `deque(maxlen=MAX_DATA_POINTS).append`: append on the right, evicting
from the left once past capacity. -/
def dequeAppend {α : Type} (xs : List α) (a : α) : List α :=
  let ys := xs ++ [a]
  if MAX_DATA_POINTS < ys.length then ys.drop (ys.length - MAX_DATA_POINTS) else ys

/-- One device+sensor pair's four synchronized deques
(e.g. `iphone_time_accel`, `iphone_accel_x/y/z`, lines 27-44).  Axis
buffers hold `Option RVal` because `_convert_accel` / `_convert_gyro`
return `None` for a `None` input, and the handheld path appends that
result unconditionally. -/
structure ChannelSet where
  time : List ℚ
  x : List (Option RVal)
  y : List (Option RVal)
  z : List (Option RVal)
deriving DecidableEq, Repr

def ChannelSet.empty : ChannelSet := ⟨[], [], [], []⟩

/-- The four ChannelSets of the process (module-level deques). -/
structure St where
  iphoneAccel : ChannelSet
  iphoneGyro : ChannelSet
  watchAccel : ChannelSet
  watchGyro : ChannelSet
deriving DecidableEq, Repr

/-- The state at process start: all deques empty. -/
def St.init : St := ⟨.empty, .empty, .empty, .empty⟩

/-- Environment-derived configuration resolved at import time
(lines 47-49): `WATCH_DEVICE_ID`, `ACCEL_UNITS` (already lowercased,
default `"m_s2"`), `GYRO_UNITS` (default `"rad_s"`). -/
structure Config where
  watchDeviceId : Option String
  accelUnits : String
  gyroUnits : String
deriving DecidableEq, Repr

/-- `if WATCH_DEVICE_ID:` — the filter is active when the env var is set
and non-empty (Python truthiness of the string). -/
def filterConfigured (cfg : Config) : Bool :=
  match cfg.watchDeviceId with
  | none => false
  | some s => !s.isEmpty

/-- `str(WATCH_DEVICE_ID)` in the device comparison (the env value is a
string, so `str` is the identity). -/
def filterString (cfg : Config) : String := cfg.watchDeviceId.getD ""

/-- `ACCEL_UNITS in ("g", "gee", "grav")` (line 108). -/
def gravUnit (s : String) : Bool := s == "g" || s == "gee" || s == "grav"

/-- `GYRO_UNITS in ("deg_s", "deg/s", "degrees_per_second", "degrees_s")`
(line 116). -/
def degUnit (s : String) : Bool :=
  s == "deg_s" || s == "deg/s" || s == "degrees_per_second" || s == "degrees_s"

/-- The standard-gravity constant `9.80665` of line 109, as an exact
rational. -/
def ACCEL_G : ℚ := 980665 / 100000

/-- The value stored for a successfully converted acceleration scalar
`q`: `q * 9.80665` under a gravitational unit config, else `q`
(lines 108-110). -/
def accelRVal (cfg : Config) (q : ℚ) : RVal :=
  if gravUnit cfg.accelUnits then ⟨q * ACCEL_G, 0⟩ else ⟨q, 0⟩

/-- The value stored for a successfully converted angular-velocity scalar
`q`: `q * (π/180)` — i.e. the element `(q/180)·π` of ℚ + ℚ·π — under a
degrees/second config, else `q` (lines 116-118). -/
def gyroRVal (cfg : Config) (q : ℚ) : RVal :=
  if degUnit cfg.gyroUnits then ⟨0, q / 180⟩ else ⟨q, 0⟩

/-- `_convert_accel` (lines 105-110): `None` passes through as `None`;
otherwise `float(v)` (which may raise) scaled per the configured unit. -/
def _convert_accel (cfg : Config) (v : JVal) : Except PyErr (Option RVal) :=
  if v.isNull then .ok none
  else
    match pyFloat v with
    | .error e => .error e
    | .ok q => .ok (some (accelRVal cfg q))

/-- `_convert_gyro` (lines 113-118). -/
def _convert_gyro (cfg : Config) (v : JVal) : Except PyErr (Option RVal) :=
  if v.isNull then .ok none
  else
    match pyFloat v with
    | .error e => .error e
    | .ok q => .ok (some (gyroRVal cfg q))

/-- The magnitude heuristic of `_to_datetime` (lines 58-66), mapping a
raw numeric timestamp to seconds. -/
def toSeconds (v : ℚ) : ℚ :=
  if v > 10 ^ 17 then v / 10 ^ 9
  else if v > 10 ^ 14 then v / 10 ^ 6
  else if v > 10 ^ 11 then v / 10 ^ 3
  else v

/-- Modelled from the spec: the §4.1 breakpoint algorithm in the spec's
own words ("values above 1e17 are treated as nanoseconds (÷1e9); above
1e14 as microseconds (÷1e6); above 1e11 as milliseconds (÷1e3);
otherwise seconds"), for refinement comparison with `toSeconds`. -/
def specToSeconds (v : ℚ) : ℚ :=
  if v > 100000000000000000 then v / 1000000000
  else if v > 100000000000000 then v / 1000000
  else if v > 100000000000 then v / 1000
  else v

/-- `_to_datetime` (lines 52-69): `None` for a `None` input; `float` the
value (non-numeric input is caught, yielding `None`); classify the
magnitude and produce the instant.  The resulting `datetime` is
identified with its seconds-since-epoch. -/
def _to_datetime (value : JVal) : Option ℚ :=
  match value with
  | .null => none
  | .num q => some (toSeconds q)
  | .bool b => some (toSeconds (if b then 1 else 0))
  | _ => none

/-- `_extract_xyz` (lines 72-80): a dict yields its `x`/`y`/`z` entries
(missing keys yield `None`); a sequence of length ≥ 3 yields its first
three elements; anything else yields `None`. -/
def _extract_xyz : JVal → Option (JVal × JVal × JVal)
  | .null => none
  | .obj fs => some (jget fs "x", jget fs "y", jget fs "z")
  | .arr (a :: b :: c :: _) => some (a, b, c)
  | _ => none

/-- `_extract_wrist_motion_accel` (lines 83-91). -/
def _extract_wrist_motion_accel : JVal → Option (JVal × JVal × JVal)
  | .obj fs => some (jget fs "accelerationX", jget fs "accelerationY", jget fs "accelerationZ")
  | _ => none

/-- `_extract_wrist_motion_gyro` (lines 94-102). -/
def _extract_wrist_motion_gyro : JVal → Option (JVal × JVal × JVal)
  | .obj fs => some (jget fs "rotationRateX", jget fs "rotationRateY", jget fs "rotationRateZ")
  | _ => none

/-- The monotonic-time guard `len(buf) == 0 or ts > buf[-1]` of
lines 449, 458, 473 and 479. -/
def monotoneOk (times : List ℚ) (ts : ℚ) : Bool :=
  match times.getLast? with
  | none => true
  | some t => decide (t < ts)

/-- The guarded four-deque append block of the route (lines 449-453,
458-462, 473-477, 479-483): if the guard holds, the time is appended,
then the three conversions run one by one, each appending on success; a
conversion exception leaves the earlier appends in place (second
component = the escaped exception), exactly as in the source, where
`_convert_*` is evaluated after the time append. -/
def guardedAppend (conv : JVal → Except PyErr (Option RVal)) (ts : ℚ)
    (vx vy vz : JVal) (cs : ChannelSet) : ChannelSet × Option PyErr :=
  if monotoneOk cs.time ts then
    let cs1 : ChannelSet := { cs with time := dequeAppend cs.time ts }
    match conv vx with
    | .error e => (cs1, some e)
    | .ok ox =>
      let cs2 : ChannelSet := { cs1 with x := dequeAppend cs1.x ox }
      match conv vy with
      | .error e => (cs2, some e)
      | .ok oy =>
        let cs3 : ChannelSet := { cs2 with y := dequeAppend cs2.y oy }
        match conv vz with
        | .error e => (cs3, some e)
        | .ok oz => ({ cs3 with z := dequeAppend cs3.z oz }, none)
  else (cs, none)

/-- `d.get("name") or d.get("sensor") or ""`, then `str(...).lower()`
(lines 432-433). -/
def recordName (fs : List (String × JVal)) : String :=
  pyStrLower (pyOr (jget fs "name") (pyOr (jget fs "sensor") (.str "")))

/-- `d.get("time") or d.get("timestamp") or d.get("ts")` (line 434) —
note the Python `or` chain, under which a falsy stored timestamp (such
as `0`) falls through. -/
def recordTsRaw (fs : List (String × JVal)) : JVal :=
  pyOr (jget fs "time") (pyOr (jget fs "timestamp") (jget fs "ts"))

/-- `d.get("values") or d.get("value") or d.get("data")` (line 436). -/
def recordValues (fs : List (String × JVal)) : JVal :=
  pyOr (jget fs "values") (pyOr (jget fs "value") (jget fs "data"))

/-- One half of the wrist-motion branch (the `if accel_xyz is not None`
block of lines 446-453, and symmetrically lines 455-462): when the
extraction produced a triple and all three axes are non-`None`, run the
guarded appends; otherwise leave the buffer untouched. -/
def wristStep (conv : JVal → Except PyErr (Option RVal)) (ts : ℚ)
    (ext : Option (JVal × JVal × JVal)) (cs : ChannelSet) : ChannelSet × Option PyErr :=
  match ext with
  | none => (cs, none)
  | some (a, b, c) =>
    if !a.isNull && !b.isNull && !c.isNull then guardedAppend conv ts a b c cs
    else (cs, none)

/-- The wrist-motion branch (lines 442-462): both wrist extractions run
on the same values object; each complete (all axes non-`None`) triple is
appended under its own monotonicity guard; an exception in the
acceleration appends aborts before the gyro block. -/
def processWrist (cfg : Config) (st : St) (ts : ℚ) (values : JVal) : St × Option PyErr :=
  let r1 := wristStep (_convert_accel cfg) ts (_extract_wrist_motion_accel values) st.watchAccel
  let st1 : St := { st with watchAccel := r1.1 }
  match r1.2 with
  | some e => (st1, some e)
  | none =>
    let r2 := wristStep (_convert_gyro cfg) ts (_extract_wrist_motion_gyro values) st1.watchGyro
    ({ st1 with watchGyro := r2.1 }, r2.2)

/-- The handheld branch (lines 465-483): the generic extraction, then —
with no `None` check on the individual axes — the guarded appends for
the accelerometer or gyroscope ChannelSet. -/
def processHandheld (cfg : Config) (st : St) (ts : ℚ) (name : String) (values : JVal) :
    St × Option PyErr :=
  match _extract_xyz values with
  | none => (st, none)
  | some (x, y, z) =>
    if name = "accelerometer" ∨ name = "accel" then
      let r := guardedAppend (_convert_accel cfg) ts x y z st.iphoneAccel
      ({ st with iphoneAccel := r.1 }, r.2)
    else if name = "gyroscope" ∨ name = "gyro" then
      let r := guardedAppend (_convert_gyro cfg) ts x y z st.iphoneGyro
      ({ st with iphoneGyro := r.1 }, r.2)
    else (st, none)

/-- Processing of one record `d` of the batch (loop body, lines 431-483).
A record that is not a dict raises `AttributeError` at `d.get("name")`. -/
def processRecord (cfg : Config) (st : St) (d : JVal) : St × Option PyErr :=
  match d with
  | .obj fs =>
    match _to_datetime (recordTsRaw fs) with
    | none => (st, none)
    | some ts =>
      if recordName fs = "wrist motion" ∨ recordName fs = "wristmotion" then
        processWrist cfg st ts (recordValues fs)
      else
        processHandheld cfg st ts (recordName fs) (recordValues fs)
  | _ => (st, some .attributeError)

/-- The `for d in ...` loop over the payload records: an exception on one
record aborts the rest of the batch (there is no per-record handler in
the source). -/
def processPayload (cfg : Config) (st : St) (records : List JVal) : St × Option PyErr :=
  match records with
  | [] => (st, none)
  | d :: rest =>
    let r := processRecord cfg st d
    match r.2 with
    | some e => (r.1, some e)
    | none => processPayload cfg r.1 rest

/-- Python iteration over the `payload` value: a list yields its
elements; a string yields its one-character strings; a dict yields its
keys; numbers, booleans and `None` raise `TypeError`. -/
def iterablePy : JVal → Except PyErr (List JVal)
  | .arr xs => .ok xs
  | .str s => .ok (s.toList.map (fun c => .str (String.singleton c)))
  | .obj fs => .ok (fs.map (fun kv => JVal.str kv.1))
  | _ => .error .typeError

/-- HTTP response of the route: `"success"`, `("bad request", 400)`, or
an uncaught exception surfacing as Flask's HTTP 500. -/
inductive Resp where
  | success : Resp
  | badRequest : Resp
  | serverError : Resp
deriving DecidableEq, Repr

/-- `payload_obj.get("deviceId") or payload_obj.get("device_id")`
(line 427). -/
def deviceIdOf (fs : List (String × JVal)) : JVal :=
  pyOr (jget fs "deviceId") (jget fs "device_id")

/-- `payload_obj.get('payload', [])` (line 431) — the default applies
only when the key is missing. -/
def payloadOf (fs : List (String × JVal)) : JVal :=
  (jlookup fs "payload").getD (.arr [])

/-- Iterate the payload value and run the record loop (lines 431-485):
a non-iterable payload, or an escaped per-record exception, surfaces as
an HTTP 500; otherwise the route returns `"success"`. -/
def runPayloadField (cfg : Config) (st : St) (pl : JVal) : Resp × St :=
  match iterablePy pl with
  | .error _ => (.serverError, st)
  | .ok rs =>
    match processPayload cfg st rs with
    | (st1, none) => (.success, st1)
    | (st1, some _) => (.serverError, st1)

/-- The `/data` route (lines 415-485).  `body` is the result of JSON
parsing: `none` when the body cannot be parsed at all (the source then
returns `("bad request", 400)`).  A parsed body that is not a dict
raises `AttributeError` at its first `.get` — whether at the device
filter (line 427) or at `payload_obj.get('payload', [])` (line 431) —
surfacing as an HTTP 500 with the state untouched.  When the device
filter is configured and the extracted device id is non-`None` and
string-unequal to the filter, the whole batch is skipped with
`"success"`. -/
def route (cfg : Config) (body : Option JVal) (st : St) : Resp × St :=
  match body with
  | none => (.badRequest, st)
  | some (.obj fs) =>
    if filterConfigured cfg ∧ (deviceIdOf fs).isNull = false ∧
        pyStr (deviceIdOf fs) ≠ filterString cfg then
      (.success, st)
    else
      runPayloadField cfg st (payloadOf fs)
  | some _ => (.serverError, st)

/-! ### Safety predicates

`float()` cannot raise on a number, a boolean, or (via the converters'
`None` pass-through) a `None`; `safeVal` captures exactly the axis
values on which the conversion step of an append cannot raise. -/

/-- Axis values on which `_convert_accel` / `_convert_gyro` cannot
raise: `None` (passed through), numbers, and booleans. -/
def safeVal : JVal → Bool
  | .null => true
  | .num _ => true
  | .bool _ => true
  | _ => false

/-- All three components of an extracted triple are conversion-safe
(vacuously true when the extraction yielded `None`). -/
def safeTriple : Option (JVal × JVal × JVal) → Bool
  | none => true
  | some (a, b, c) => safeVal a && safeVal b && safeVal c

/-- A record on which the loop body cannot raise: a mapping whose
extracted axis candidates (generic and wrist-specific) are all
conversion-safe.  Sensor name, timestamp and values container are
otherwise arbitrary. -/
def SafeRecord : JVal → Bool
  | .obj fs =>
    safeTriple (_extract_xyz (recordValues fs)) &&
    safeTriple (_extract_wrist_motion_accel (recordValues fs)) &&
    safeTriple (_extract_wrist_motion_gyro (recordValues fs))
  | _ => false

/-- A batch object whose `payload` is a list of safe records (the
`payload` key may also be absent, giving the empty list). -/
def SafeBatch (fs : List (String × JVal)) : Bool :=
  match payloadOf fs with
  | .arr rs => rs.all SafeRecord
  | _ => false

/-! ### Concrete fixtures used by counterexamples and witnesses -/

/-- Default configuration: no device filter, canonical units
(`ACCEL_UNITS = "m_s2"`, `GYRO_UNITS = "rad_s"`). -/
def cfgDefault : Config := ⟨none, "m_s2", "rad_s"⟩

/-- Configuration with the device filter set to `"abc"`. -/
def cfgAbc : Config := ⟨some "abc", "m_s2", "rad_s"⟩

/-- Configuration with gravitational acceleration units. -/
def cfgG : Config := ⟨none, "g", "rad_s"⟩

/-- Configuration with degrees/second angular-velocity units. -/
def cfgDeg : Config := ⟨none, "m_s2", "deg_s"⟩

/-- A fully well-formed handheld accelerometer record. -/
def goodRec : JVal :=
  .obj [("name", .str "accelerometer"), ("time", .num 1700000000),
        ("values", .obj [("x", .num 1), ("y", .num 2), ("z", .num 3)])]

/-- A handheld accelerometer record whose `values` mapping lacks the
`z` key (only `x` and `y` present). -/
def missingZRec : JVal :=
  .obj [("name", .str "accelerometer"), ("time", .num 1700000000),
        ("values", .obj [("x", .num 1), ("y", .num 2)])]

/-- A handheld accelerometer record whose `x` axis is the non-numeric
string `"abc"` (on which Python `float` raises `ValueError`). -/
def badAxisRec : JVal :=
  .obj [("name", .str "accelerometer"), ("time", .num 1700000000),
        ("values", .obj [("x", .str "abc"), ("y", .num 0), ("z", .num 0)])]

/-- The values mapping of a wrist-motion record carrying all six wrist
keys with numeric values. -/
def wristVals : List (String × JVal) :=
  [("accelerationX", .num 1), ("accelerationY", .num 2), ("accelerationZ", .num 3),
   ("rotationRateX", .num 4), ("rotationRateY", .num 5), ("rotationRateZ", .num 6)]

/-- The fields of a wrist-motion record carrying all six wrist keys. -/
def wristFs : List (String × JVal) :=
  [("name", .str "wrist motion"), ("time", .num 1700000000), ("values", .obj wristVals)]

/-- A nonempty ChannelSet with last stored time `10`, used to exercise
the monotonic guard. -/
def cs6 : ChannelSet := ⟨[10], [some ⟨1, 0⟩], [some ⟨1, 0⟩], [some ⟨1, 0⟩]⟩

/-- The fields of a record whose `time` is the numeric value `0` and
which has no `timestamp` or `ts` key (otherwise fully well-formed). -/
def c10fs : List (String × JVal) :=
  [("time", .num 0), ("name", .str "accelerometer"),
   ("values", .obj [("x", .num 1), ("y", .num 2), ("z", .num 3)])]

/-- A batch of safe records exercising each locally-absorbed per-record
failure — unrecognized sensor name, missing timestamp, wrong-shaped
values container, wrist record with missing axes — followed by a
well-formed record. -/
def c2SafeDemo : List JVal :=
  [.obj [("name", .str "unknown_sensor"), ("time", .num 1700000000),
         ("values", .obj [("x", .num 1), ("y", .num 2), ("z", .num 3)])],
   .obj [("name", .str "accelerometer")],
   .obj [("name", .str "accelerometer"), ("time", .num 1700000000), ("values", .num 7)],
   .obj [("name", .str "wrist motion"), ("time", .num 1700000001),
         ("values", .obj [("accelerationX", .num 1)])],
   goodRec]

deriving instance DecidableEq for Except

/-! ## Theorems -/

/-- C5: the timestamp normalizer converts a numeric raw timestamp to
seconds by magnitude exactly as the spec's breakpoint algorithm
prescribes (`toSeconds` refines `specToSeconds`, the spec-worded
definition), and the four representative inputs 1.70e9, 1.70e12,
1.70e15 and 1.70e18 all map to the same absolute instant
1.70e9 seconds — here exactly, which is within any floating
tolerance. -/
theorem C5_timestamp_magnitude :
    (∀ v : ℚ, toSeconds v = specToSeconds v) ∧
    toSeconds 1700000000 = 1700000000 ∧
    toSeconds 1700000000000 = 1700000000 ∧
    toSeconds 1700000000000000 = 1700000000 ∧
    toSeconds 1700000000000000000 = 1700000000 ∧
    _to_datetime (.num 1700000000000) = some 1700000000 := by
  refine ⟨fun v => ?_, by norm_num [toSeconds], by norm_num [toSeconds],
    by norm_num [toSeconds], by norm_num [toSeconds], by norm_num [_to_datetime, toSeconds]⟩
  simp only [toSeconds, specToSeconds]
  norm_num

/-- C9: for every numeric scalar `q`, the acceleration converter yields
`q * 9.80665` under a gravitational-unit configuration and `q` unchanged
otherwise, and the angular-velocity converter yields `q * (π/180)` (the
element `(q/180)·π` of ℚ + ℚ·π) under a degrees/second configuration and
`q` unchanged otherwise; in particular acceleration `1` under `"g"` maps
to `9.80665` and angular velocity `180` under `"deg_s"` maps to the
value whose real interpretation is exactly `π`. -/
theorem C9_unit_conversion :
    (∀ (cfg : Config) (q : ℚ), _convert_accel cfg (.num q) =
      .ok (some (if gravUnit cfg.accelUnits then ⟨q * (980665 / 100000), 0⟩ else ⟨q, 0⟩))) ∧
    (∀ (cfg : Config) (q : ℚ), _convert_gyro cfg (.num q) =
      .ok (some (if degUnit cfg.gyroUnits then ⟨0, q / 180⟩ else ⟨q, 0⟩))) ∧
    _convert_accel cfgG (.num 1) = .ok (some ⟨980665 / 100000, 0⟩) ∧
    _convert_gyro cfgDeg (.num 180) = .ok (some ⟨0, 1⟩) ∧
    (((RVal.mk 0 1).q : ℝ) + ((RVal.mk 0 1).p : ℝ) * Real.pi = Real.pi) := by
  refine ⟨fun cfg q => ?_, fun cfg q => ?_,
    by simp [_convert_accel, pyFloat, JVal.isNull, accelRVal, ACCEL_G, gravUnit, cfgG],
    by simp [_convert_gyro, pyFloat, JVal.isNull, gyroRVal, degUnit, cfgDeg],
    by push_cast; ring⟩
  · simp [_convert_accel, pyFloat, JVal.isNull, accelRVal, ACCEL_G]
  · simp [_convert_gyro, pyFloat, JVal.isNull, gyroRVal]

/-- C1: evaluation of the route at the failing input — a handheld
accelerometer record whose `values` mapping lacks the `z` key.  The
handheld branch performs no per-axis `None` check (unlike the wrist
branch, lines 448 and 457), so instead of discarding the triple it
appends a 4-tuple whose `z` entry is `None`: the record is not
discarded, contradicting the claim (the four buffer lengths do remain
equal). -/
theorem C1_missing_axis_appended :
    route cfgDefault (some (.obj [("payload", .arr [missingZRec])])) St.init =
      (.success,
       { St.init with
          iphoneAccel := ⟨[1700000000], [some ⟨1, 0⟩], [some ⟨2, 0⟩], [none]⟩ }) := by
  decide

/-- C4: evaluation of the route at the failing input — from the empty
initial state, a single batch with one handheld accelerometer record
whose `x` value is the non-numeric string `"abc"`.  The timestamp is
appended (line 474) before `_convert_accel` raises `ValueError`
(line 475), so the escaped exception leaves the handheld-accel
ChannelSet with a time buffer of length 1 and axis buffers of length 0:
the four buffers do not have identical length after this ingestion
operation. -/
theorem C4_desync_eval :
    route cfgDefault (some (.obj [("payload", .arr [badAxisRec])])) St.init =
      (.serverError,
       { St.init with iphoneAccel := ⟨[1700000000], [], [], []⟩ }) ∧
    ({ St.init with
        iphoneAccel := (⟨[1700000000], [], [], []⟩ : ChannelSet) }).iphoneAccel.time.length ≠
      ({ St.init with
          iphoneAccel := (⟨[1700000000], [], [], []⟩ : ChannelSet) }).iphoneAccel.x.length := by
  exact ⟨by decide, by decide⟩

/-- C2 is false as stated: the batch `\x7b"payload": [5, goodRec]\x7d`
(valid JSON) makes the loop body raise `AttributeError` at
`d.get("name")` on the non-mapping record `5`; the exception escapes the
route (HTTP 500) and the following well-formed record `goodRec` is never
processed (the state stays at `St.init`), although `goodRec` alone would
have been appended. -/
theorem C2_counterexample :
    route cfgDefault (some (.obj [("payload", .arr [.num 5, goodRec])])) St.init =
      (.serverError, St.init) ∧
    route cfgDefault (some (.obj [("payload", .arr [goodRec])])) St.init =
      (.success,
       { St.init with
          iphoneAccel := ⟨[1700000000], [some ⟨1, 0⟩], [some ⟨2, 0⟩], [some ⟨3, 0⟩]⟩ }) := by
  exact ⟨by decide, by decide⟩

/-- C3 is false as stated: the body `5` parses as JSON but is not an
object, so `payload_obj.get(...)` raises `AttributeError`, and the
route's response is an HTTP 500 — neither the success response the
claim requires for every JSON-parseable body, nor a 400. -/
theorem C3_counterexample :
    (route cfgDefault (some (.num 5)) St.init).1 ≠ .success ∧
    (route cfgDefault (some (.num 5)) St.init).1 ≠ .badRequest := by
  exact ⟨by decide, by decide⟩

/-- C6: for every ChannelBuffer append of a complete sample, the 4-tuple
is appended exactly when the time buffer is empty or the new time is
strictly greater than the last stored time; an out-of-order or
duplicate-timestamp sample is silently dropped, leaving every buffer's
length and contents unchanged (the pair returned is the unmodified
ChannelSet with no queueing or reordering). -/
theorem C6_monotonic_guard (conv : JVal → Except PyErr (Option RVal)) (ts : ℚ)
    (vx vy vz : JVal) (cs : ChannelSet) :
    (monotoneOk cs.time ts = false → guardedAppend conv ts vx vy vz cs = (cs, none)) ∧
    (∀ ox oy oz, monotoneOk cs.time ts = true →
      conv vx = .ok ox → conv vy = .ok oy → conv vz = .ok oz →
      guardedAppend conv ts vx vy vz cs =
        (⟨dequeAppend cs.time ts, dequeAppend cs.x ox, dequeAppend cs.y oy,
          dequeAppend cs.z oz⟩, none)) := by
  constructor
  · intro h
    simp [guardedAppend, h]
  · intro ox oy oz hg hx hy hz
    simp [guardedAppend, hg, hx, hy, hz]

/-- Witness for C6 at concrete inputs: appending at time `10` onto a
buffer whose last time is `10` is dropped with the state unchanged,
while appending at time `11` extends all four buffers. -/
theorem C6_monotonic_guard_witness :
    guardedAppend (_convert_accel cfgDefault) 10 (.num 2) (.num 2) (.num 2) cs6 =
      (cs6, none) ∧
    guardedAppend (_convert_accel cfgDefault) 11 (.num 2) (.num 2) (.num 2) cs6 =
      (⟨[10, 11], [some ⟨1, 0⟩, some ⟨2, 0⟩], [some ⟨1, 0⟩, some ⟨2, 0⟩],
        [some ⟨1, 0⟩, some ⟨2, 0⟩]⟩, none) := by
  constructor
  · exact (C6_monotonic_guard (_convert_accel cfgDefault) 10 (.num 2) (.num 2) (.num 2) cs6).1
      (by decide)
  · have h := (C6_monotonic_guard (_convert_accel cfgDefault) 11 (.num 2) (.num 2) (.num 2) cs6).2
      (some ⟨2, 0⟩) (some ⟨2, 0⟩) (some ⟨2, 0⟩) (by decide) (by decide) (by decide) (by decide)
    rw [h]
    decide

/-- C8: when the device filter is configured and the batch's extracted
device identifier is a present string value that does not compare equal
to the filter, the route skips the entire batch: every ChannelSet is
left unchanged and the response is success, not an error. -/
theorem C8_device_filter_skip (cfg : Config) (st : St) (fs : List (String × JVal)) (s : String)
    (hf : filterConfigured cfg = true)
    (hid : deviceIdOf fs = .str s)
    (hne : s ≠ filterString cfg) :
    route cfg (some (.obj fs)) st = (.success, st) := by
  simp [route, hf, hid, JVal.isNull, pyStr, hne]

/-- Witness for C8: filter `"abc"`, incoming `deviceId` `"xyz"`, and a
payload carrying a well-formed record — the state is untouched and the
response is success. -/
theorem C8_device_filter_skip_witness :
    filterConfigured cfgAbc = true ∧
    deviceIdOf [("deviceId", .str "xyz"), ("payload", .arr [goodRec])] = .str "xyz" ∧
    route cfgAbc (some (.obj [("deviceId", .str "xyz"), ("payload", .arr [goodRec])])) St.init =
      (.success, St.init) := by
  refine ⟨by decide, by rfl, ?_⟩
  exact C8_device_filter_skip cfgAbc St.init _ "xyz" (by decide) (by rfl) (by decide)

/-- C10: a record whose `time` field holds the numeric value `0` and
which has no `timestamp` or `ts` field is skipped entirely — nothing is
appended to any buffer — because the `or`-chain over time/timestamp/ts
treats the falsy `0` as absent; yet `0` on its own is an
otherwise-parseable timestamp (`_to_datetime` maps it to the epoch). -/
theorem C10_zero_timestamp_skipped (cfg : Config) (st : St) (fs : List (String × JVal))
    (h0 : jget fs "time" = .num 0)
    (h1 : jlookup fs "timestamp" = none)
    (h2 : jlookup fs "ts" = none) :
    processRecord cfg st (.obj fs) = (st, none) ∧ _to_datetime (.num 0) = some 0 := by
  constructor
  · have h1' : jget fs "timestamp" = .null := by simp [jget, h1]
    have h2' : jget fs "ts" = .null := by simp [jget, h2]
    have hraw : recordTsRaw fs = .null := by
      rw [recordTsRaw, h0, h1', h2']
      simp [pyOr, truthy]
    simp [processRecord, hraw, _to_datetime]
  · decide

/-- Witness for C10 at the concrete record `c10fs` (time `0`, no other
timestamp keys, otherwise fully well-formed): the state is unchanged. -/
theorem C10_zero_timestamp_skipped_witness :
    jget c10fs "time" = .num 0 ∧
    processRecord cfgDefault St.init (.obj c10fs) = (St.init, none) :=
  ⟨rfl, (C10_zero_timestamp_skipped cfgDefault St.init c10fs rfl rfl rfl).1⟩

/-- The acceleration converter cannot raise on a conversion-safe value. -/
lemma convOk_accel (cfg : Config) (v : JVal) (hv : safeVal v = true) :
    ∃ o, _convert_accel cfg v = .ok o := by
  cases v with
  | null => exact ⟨none, rfl⟩
  | bool b => exact ⟨some (accelRVal cfg (if b then 1 else 0)), rfl⟩
  | num q => exact ⟨some (accelRVal cfg q), rfl⟩
  | str s => simp [safeVal] at hv
  | arr xs => simp [safeVal] at hv
  | obj fs => simp [safeVal] at hv

/-- The angular-velocity converter cannot raise on a conversion-safe
value. -/
lemma convOk_gyro (cfg : Config) (v : JVal) (hv : safeVal v = true) :
    ∃ o, _convert_gyro cfg v = .ok o := by
  cases v with
  | null => exact ⟨none, rfl⟩
  | bool b => exact ⟨some (gyroRVal cfg (if b then 1 else 0)), rfl⟩
  | num q => exact ⟨some (gyroRVal cfg q), rfl⟩
  | str s => simp [safeVal] at hv
  | arr xs => simp [safeVal] at hv
  | obj fs => simp [safeVal] at hv

/-- A guarded append on conversion-safe axis values never lets an
exception escape. -/
lemma guardedAppend_snd_none (conv : JVal → Except PyErr (Option RVal))
    (hconv : ∀ v, safeVal v = true → ∃ o, conv v = Except.ok o)
    (ts : ℚ) (vx vy vz : JVal) (cs : ChannelSet)
    (hx : safeVal vx = true) (hy : safeVal vy = true) (hz : safeVal vz = true) :
    (guardedAppend conv ts vx vy vz cs).2 = none := by
  obtain ⟨ox, hox⟩ := hconv vx hx
  obtain ⟨oy, hoy⟩ := hconv vy hy
  obtain ⟨oz, hoz⟩ := hconv vz hz
  cases hg : monotoneOk cs.time ts with
  | false => simp [guardedAppend, hg]
  | true => simp [guardedAppend, hg, hox, hoy, hoz]

/-- A wrist half-step on a conversion-safe extracted triple never lets
an exception escape. -/
lemma wristStep_snd_none (conv : JVal → Except PyErr (Option RVal))
    (hconv : ∀ v, safeVal v = true → ∃ o, conv v = Except.ok o)
    (ts : ℚ) (ext : Option (JVal × JVal × JVal)) (cs : ChannelSet)
    (h : safeTriple ext = true) :
    (wristStep conv ts ext cs).2 = none := by
  cases ext with
  | none => rfl
  | some t =>
    obtain ⟨a, b, c⟩ := t
    simp only [safeTriple, Bool.and_eq_true] at h
    simp only [wristStep]
    split
    · exact guardedAppend_snd_none conv hconv ts a b c cs h.1.1 h.1.2 h.2
    · rfl

/-- The wrist-motion branch on conversion-safe extractions never lets an
exception escape. -/
lemma processWrist_snd_none (cfg : Config) (st : St) (ts : ℚ) (values : JVal)
    (ha : safeTriple (_extract_wrist_motion_accel values) = true)
    (hg : safeTriple (_extract_wrist_motion_gyro values) = true) :
    (processWrist cfg st ts values).2 = none := by
  have h1 := wristStep_snd_none (_convert_accel cfg) (convOk_accel cfg) ts
    (_extract_wrist_motion_accel values) st.watchAccel ha
  simp only [processWrist, h1]
  exact wristStep_snd_none (_convert_gyro cfg) (convOk_gyro cfg) ts
    (_extract_wrist_motion_gyro values) _ hg

/-- The handheld branch on a conversion-safe extracted triple never lets
an exception escape. -/
lemma processHandheld_snd_none (cfg : Config) (st : St) (ts : ℚ) (name : String) (values : JVal)
    (h : safeTriple (_extract_xyz values) = true) :
    (processHandheld cfg st ts name values).2 = none := by
  revert h
  simp only [processHandheld]
  generalize _extract_xyz values = ext
  intro h
  cases ext with
  | none => rfl
  | some t =>
    obtain ⟨x, y, z⟩ := t
    simp only [safeTriple, Bool.and_eq_true] at h
    dsimp only
    split_ifs
    · exact guardedAppend_snd_none _ (convOk_accel cfg) ts x y z _ h.1.1 h.1.2 h.2
    · exact guardedAppend_snd_none _ (convOk_gyro cfg) ts x y z _ h.1.1 h.1.2 h.2
    · rfl

/-- Processing a safe record never lets an exception escape. -/
lemma processRecord_snd_none (cfg : Config) (st : St) (d : JVal)
    (h : SafeRecord d = true) :
    (processRecord cfg st d).2 = none := by
  cases d with
  | obj fs =>
    simp only [SafeRecord, Bool.and_eq_true] at h
    simp only [processRecord]
    cases _to_datetime (recordTsRaw fs) with
    | none => rfl
    | some ts =>
      split_ifs
      · exact processWrist_snd_none cfg st ts (recordValues fs) h.1.2 h.2
      · exact processHandheld_snd_none cfg st ts (recordName fs) (recordValues fs) h.1.1
  | null => simp [SafeRecord] at h
  | bool b => simp [SafeRecord] at h
  | num q => simp [SafeRecord] at h
  | str s => simp [SafeRecord] at h
  | arr xs => simp [SafeRecord] at h

/-- Processing a batch of safe records never lets an exception escape,
whatever the starting state. -/
lemma processPayload_snd_none (cfg : Config) (records : List JVal) :
    ∀ st : St, records.all SafeRecord = true → (processPayload cfg st records).2 = none := by
  induction records with
  | nil => intro st _; rfl
  | cons d rest ih =>
    intro st h
    simp only [List.all_cons, Bool.and_eq_true] at h
    simp only [processPayload, processRecord_snd_none cfg st d h.1]
    exact ih _ h.2

/-- C2 (amended): per-record failures of the kinds the route checks for
— unrecognized sensor name, missing/invalid/falsy timestamp, missing or
non-mapping/non-sequence values container, wrist triples with absent
axes — are locally absorbed and never abort the batch: for every batch
of records that are mappings whose extracted axis candidates are numeric,
boolean or absent, processing raises no exception that escapes the
route, whatever the starting state. -/
theorem C2_amended (cfg : Config) (st : St) (records : List JVal)
    (h : records.all SafeRecord = true) :
    (processPayload cfg st records).2 = none :=
  processPayload_snd_none cfg records st h

/-- Witness for C2 (amended) on a concrete batch exercising a bad
sensor name, a missing timestamp, a wrong-shaped values container and a
wrist record with absent axes, followed by a well-formed record: no
exception escapes. -/
theorem C2_amended_witness :
    c2SafeDemo.all SafeRecord = true ∧
    (processPayload cfgDefault St.init c2SafeDemo).2 = none :=
  ⟨by decide, C2_amended cfgDefault St.init c2SafeDemo (by decide)⟩

/-- The payload loop never yields the 400 response. -/
lemma runPayloadField_fst_ne_badRequest (cfg : Config) (st : St) (pl : JVal) :
    (runPayloadField cfg st pl).1 ≠ .badRequest := by
  unfold runPayloadField
  split
  · exact fun hcon => Resp.noConfusion hcon
  · split
    · exact fun hcon => Resp.noConfusion hcon
    · exact fun hcon => Resp.noConfusion hcon

/-- C3 (amended): the route returns HTTP 400 exactly when the body
cannot be parsed as JSON at all; for a body parsing as a JSON object
whose `payload` is absent or is a list of safe records (mappings with
numeric/boolean/absent axis candidates), the route returns success —
even when every record is filtered or skipped.  (A JSON body that is
not an object, or a record whose processing raises, instead surfaces as
an uncaught exception, HTTP 500 — see the counterexample.) -/
theorem C3_amended :
    (∀ (cfg : Config) (st : St), route cfg none st = (.badRequest, st)) ∧
    (∀ (cfg : Config) (body : Option JVal) (st : St),
      (route cfg body st).1 = .badRequest → body = none) ∧
    (∀ (cfg : Config) (fs : List (String × JVal)) (st : St),
      SafeBatch fs = true → (route cfg (some (.obj fs)) st).1 = .success) := by
  refine ⟨fun cfg st => rfl, ?_, ?_⟩
  · intro cfg body st h
    cases body with
    | none => rfl
    | some v =>
      exfalso
      cases v with
      | obj fs =>
        simp only [route] at h
        split at h
        · simp at h
        · exact runPayloadField_fst_ne_badRequest cfg st (payloadOf fs) h
      | null => simp [route] at h
      | bool b => simp [route] at h
      | num q => simp [route] at h
      | str s => simp [route] at h
      | arr xs => simp [route] at h
  · intro cfg fs st h
    simp only [SafeBatch] at h
    simp only [route]
    split
    · rfl
    · cases hp : payloadOf fs with
      | arr rs =>
        rw [hp] at h
        have h2 := processPayload_snd_none cfg rs st h
        simp only [runPayloadField, hp, iterablePy]
        cases hq : processPayload cfg st rs with
        | mk st1 errOpt =>
          rw [hq] at h2
          simp only at h2
          rw [h2]
      | null => rw [hp] at h; simp at h
      | bool b => rw [hp] at h; simp at h
      | num q => rw [hp] at h; simp at h
      | str s => rw [hp] at h; simp at h
      | obj l => rw [hp] at h; simp at h

/-- Witness for C3 (amended), applying it at the unparseable body, and
at a concrete safe batch in which every record is skipped or appended:
the responses are 400 and success respectively. -/
theorem C3_amended_witness :
    route cfgDefault none St.init = (.badRequest, St.init) ∧
    SafeBatch [("payload", .arr c2SafeDemo)] = true ∧
    (route cfgDefault (some (.obj [("payload", .arr c2SafeDemo)])) St.init).1 = .success := by
  refine ⟨C3_amended.1 cfgDefault St.init, by decide, ?_⟩
  exact C3_amended.2.2 cfgDefault [("payload", .arr c2SafeDemo)] St.init (by decide)

/-- C7: a wrist-motion record whose values mapping contains all of
`accelerationX/Y/Z` and `rotationRateX/Y/Z` with (numeric, hence
non-absent) values, and whose timestamp passes both monotonicity
guards, produces from the single record exactly one append to the
wrist-accel ChannelSet and exactly one append to the wrist-gyro
ChannelSet — each of their four buffers is extended by exactly its
converted entry, and both handheld ChannelSets are untouched. -/
theorem C7_wrist_double_append (cfg : Config) (st : St) (fs vfs : List (String × JVal))
    (ts ax ay az gx gy gz : ℚ)
    (hname : recordName fs = "wrist motion" ∨ recordName fs = "wristmotion")
    (hts : _to_datetime (recordTsRaw fs) = some ts)
    (hvals : recordValues fs = .obj vfs)
    (hax : jget vfs "accelerationX" = .num ax)
    (hay : jget vfs "accelerationY" = .num ay)
    (haz : jget vfs "accelerationZ" = .num az)
    (hgx : jget vfs "rotationRateX" = .num gx)
    (hgy : jget vfs "rotationRateY" = .num gy)
    (hgz : jget vfs "rotationRateZ" = .num gz)
    (hg1 : monotoneOk st.watchAccel.time ts = true)
    (hg2 : monotoneOk st.watchGyro.time ts = true) :
    processRecord cfg st (.obj fs) =
      ({ st with
          watchAccel := ⟨dequeAppend st.watchAccel.time ts,
                         dequeAppend st.watchAccel.x (some (accelRVal cfg ax)),
                         dequeAppend st.watchAccel.y (some (accelRVal cfg ay)),
                         dequeAppend st.watchAccel.z (some (accelRVal cfg az))⟩,
          watchGyro := ⟨dequeAppend st.watchGyro.time ts,
                        dequeAppend st.watchGyro.x (some (gyroRVal cfg gx)),
                        dequeAppend st.watchGyro.y (some (gyroRVal cfg gy)),
                        dequeAppend st.watchGyro.z (some (gyroRVal cfg gz))⟩ }, none) := by
  have cax : _convert_accel cfg (.num ax) = .ok (some (accelRVal cfg ax)) := rfl
  have cay : _convert_accel cfg (.num ay) = .ok (some (accelRVal cfg ay)) := rfl
  have caz : _convert_accel cfg (.num az) = .ok (some (accelRVal cfg az)) := rfl
  have cgx : _convert_gyro cfg (.num gx) = .ok (some (gyroRVal cfg gx)) := rfl
  have cgy : _convert_gyro cfg (.num gy) = .ok (some (gyroRVal cfg gy)) := rfl
  have cgz : _convert_gyro cfg (.num gz) = .ok (some (gyroRVal cfg gz)) := rfl
  simp only [processRecord, hts]
  rw [if_pos hname]
  simp only [processWrist, wristStep, hvals, _extract_wrist_motion_accel,
    _extract_wrist_motion_gyro, hax, hay, haz, hgx, hgy, hgz, JVal.isNull,
    Bool.not_false, Bool.and_self, if_true, guardedAppend, hg1, hg2,
    cax, cay, caz, cgx, cgy, cgz]

/-- Witness for C7 at the concrete wrist record `wristFs` from the
empty initial state: both watch ChannelSets receive exactly one
entry and the handheld ChannelSets stay empty. -/
theorem C7_wrist_double_append_witness :
    processRecord cfgDefault St.init (.obj wristFs) =
      ({ St.init with
          watchAccel := ⟨[1700000000], [some ⟨1, 0⟩], [some ⟨2, 0⟩], [some ⟨3, 0⟩]⟩,
          watchGyro := ⟨[1700000000], [some ⟨4, 0⟩], [some ⟨5, 0⟩], [some ⟨6, 0⟩]⟩ }, none) := by
  have h := C7_wrist_double_append cfgDefault St.init wristFs wristVals
    1700000000 1 2 3 4 5 6 (Or.inl (by decide)) (by decide) rfl rfl rfl rfl rfl rfl rfl
    (by decide) (by decide)
  rw [h]
  decide

end FormAI
